import Mathlib

/-!
Verification development for the Black_Scholes_Calculator repository.

The numeric core is embedded shallowly over the reals:

* statistics helpers (`mean`, `sampleCov`, `sampleStd`, `corr`, `pctChange`)
  mirror the pandas/numpy estimators used by the source (sample statistics
  with `ddof = 1`, Pearson correlation);
* `get_crypto_stats` embeds `src/crypto_statistics.py`;
* `calculate_portfolio_metrics` embeds
  `src/risk_return.py:calculate_portfolio_metrics`, with the data frame
  returned by the `yfinance` download passed in explicitly as a
  column-per-ticker list (the code performs the download itself);
* the Black-Scholes pricer, whose module `black_scholes.py` is not part of
  the sources, is modelled from the specification's stated formulas.

Python float arithmetic is idealised as real arithmetic; where the source
produces IEEE `inf`/`nan` (division by zero, statistics of too-short
series), the embedding produces Lean's junk values (`x / 0 = 0`).
-/

noncomputable section

open MeasureTheory Set

/-- Arithmetic mean of a list, `xs.mean()` in pandas (junk `0` on `[]`). -/
def mean (xs : List ℝ) : ℝ := xs.sum / xs.length

/-- Sample covariance with `ddof = 1`, as pandas computes it
(junk on lists shorter than 2). -/
def sampleCov (xs ys : List ℝ) : ℝ :=
  (List.zipWith (fun a b => (a - mean xs) * (b - mean ys)) xs ys).sum /
    ((xs.length : ℝ) - 1)

/-- Sample variance with `ddof = 1`. -/
def sampleVar (xs : List ℝ) : ℝ := sampleCov xs xs

/-- Sample standard deviation, `xs.std()` in pandas. -/
def sampleStd (xs : List ℝ) : ℝ := Real.sqrt (sampleVar xs)

/-- Pearson correlation of two aligned series, as in `DataFrame.corr`. -/
def corr (xs ys : List ℝ) : ℝ := sampleCov xs ys / (sampleStd xs * sampleStd ys)

/-- Daily simple returns, `series.pct_change().dropna()`. -/
def pctChange (prices : List ℝ) : List ℝ :=
  List.zipWith (fun prev cur => (cur - prev) / prev) prices prices.tail

/-- Every second row of a series, `df.iloc[::2]` in
`src/crypto_statistics.py` line 36. -/
def everyOther : List ℝ → List ℝ
  | [] => []
  | [a] => [a]
  | a :: _ :: rest => a :: everyOther rest

/-- The four statistics returned by `get_crypto_stats`
(`src/crypto_statistics.py` lines 52-57). -/
structure CryptoStats where
  current_price : ℝ
  price_change_24h : ℝ
  annual_return : ℝ
  volatility : ℝ

/-- Outcome of `get_crypto_stats`: a statistics dict or an error dict. -/
inductive CryptoResult where
  | stats (s : CryptoStats) : CryptoResult
  | error (msg : String) : CryptoResult

/-- True when `get_crypto_stats` produced the error-dict form. -/
def isErrorCrypto : CryptoResult → Bool
  | .stats _ => false
  | .error _ => true

/-- Embedding of `src/crypto_statistics.py:get_crypto_stats`, taking the raw
daily close series fetched from CryptoCompare as input.  An empty fetch makes
`pd.DataFrame(raw_data)['time']` raise `KeyError('time')`, caught by the
outer handler (lines 60-61); a sampled series of fewer than 2 rows makes
`iloc[-2]` raise `IndexError`, caught by the same handler. -/
def get_crypto_stats (symbol : String) (closes : List ℝ) : CryptoResult :=
  match closes with
  | [] => .error ("Error fetching data for " ++ symbol ++ ": " ++ "'time'")
  | _ :: _ =>
    if closes.length < 2 then .error "Not enough data to calculate statistics"
    else
      let sampled := everyOther closes
      if sampled.length < 2 then
        .error ("Error fetching data for " ++ symbol ++
          ": single positional indexer is out-of-bounds")
      else
        let current := sampled.getLastD 0
        let previous := sampled.dropLast.getLastD 0
        let start := sampled.headD 0
        let logReturns := List.zipWith (fun a b => Real.log (b / a)) sampled sampled.tail
        let vol := sampleStd logReturns * Real.sqrt 252
        .stats { current_price := current
               , price_change_24h := (current - previous) / previous * 100
               , annual_return := (current - start) / start * 100
               , volatility := vol * 100 }

/-- One portfolio entry, a `(stock_ticker, number_of_shares, current_price)`
tuple of `src/risk_return.py`. -/
structure Holding where
  ticker : String
  shares : ℝ
  price : ℝ

/-- The per-ticker columns of `yf.download(stock_tickers, period="5y")['Adj Close']`:
the aligned daily close series for each ticker the download succeeded for. -/
def PriceFrame := List (String × List ℝ)

/-- One entry of the `stock_details` dict (`src/risk_return.py` lines 71-78). -/
structure StockDetail where
  shares : ℝ
  current_price : ℝ
  total_value : ℝ
  annual_return : ℝ
  annual_volatility : ℝ
  weight : ℝ

/-- Fallback detail record used when a lookup misses. -/
def dfltDetail : StockDetail := ⟨0, 0, 0, 0, 0, 0⟩

/-- The dict returned by `calculate_portfolio_metrics`
(`src/risk_return.py` lines 101-108). -/
structure PortfolioMetrics where
  total_portfolio_value : ℝ
  portfolio_expected_return : ℝ
  portfolio_volatility : ℝ
  sharpe_ratio : ℝ
  stock_details : List (String × StockDetail)
  individual_stocks : List String

/-- `stock_data.empty` for the downloaded frame: no columns or no rows. -/
def frameEmpty (frame : PriceFrame) : Bool :=
  frame.isEmpty || frame.all (fun c => c.2.isEmpty)

/-- `returns = stock_data.pct_change().dropna()` (line 44): per-column daily
simple returns. -/
def returnsFrame (frame : PriceFrame) : List (String × List ℝ) :=
  frame.map (fun c => (c.1, pctChange c.2))

/-- The return column of one ticker (junk `[]` when absent). -/
def colOf (ret : List (String × List ℝ)) (t : String) : List ℝ :=
  (List.lookup t ret).getD []

/-- `total_portfolio_value = sum(shares * price)` (line 29). -/
def totalValue (p : List Holding) : ℝ :=
  (p.map (fun h => h.shares * h.price)).sum

/-- The holdings that survive the `if ticker not in returns.columns: continue`
skip of lines 52-56. -/
def includedHoldings (p : List Holding) (ret : List (String × List ℝ)) : List Holding :=
  p.filter (fun h => (List.lookup h.ticker ret).isSome)

/-- `weight = stock_value / total_portfolio_value` (line 65). -/
def weightOf (p : List Holding) (h : Holding) : ℝ :=
  h.shares * h.price / totalValue p

/-- The per-stock record stored in `stock_details` (lines 58-78); note that
`annual_return` and `annual_volatility` are stored as fractions, not
percentages. -/
def stockDetailOf (p : List Holding) (ret : List (String × List ℝ)) (h : Holding) :
    StockDetail :=
  { shares := h.shares
  , current_price := h.price
  , total_value := h.shares * h.price
  , annual_return := mean (colOf ret h.ticker) * 252
  , annual_volatility := sampleStd (colOf ret h.ticker) * Real.sqrt 252
  , weight := weightOf p h }

/-- `portfolio_expected_return = np.dot(portfolio_weights, expected_returns)`
(line 85), a fraction. -/
def expectedReturnFrac (p : List Holding) (ret : List (String × List ℝ)) : ℝ :=
  ((includedHoldings p ret).map
    (fun h => weightOf p h * (mean (colOf ret h.ticker) * 252))).sum

/-- One entry of `correlation_matrix * np.outer(std_devs, std_devs)`
(lines 88-91), built from the daily (non-annualized) return series. -/
def covEntry (ret : List (String × List ℝ)) (ti tj : String) : ℝ :=
  corr (colOf ret ti) (colOf ret tj) *
    (sampleStd (colOf ret ti) * sampleStd (colOf ret tj))

/-- `np.dot(np.dot(w, Cov), w)` (lines 92-95) in the aligned case where the
weight vector and the selected covariance matrix have the same index set. -/
def portfolioVarianceFrac (p : List Holding) (ret : List (String × List ℝ)) : ℝ :=
  ((includedHoldings p ret).map (fun hi =>
    ((includedHoldings p ret).map (fun hj =>
      weightOf p hi * covEntry ret hi.ticker hj.ticker * weightOf p hj)).sum)).sum

/-- `portfolio_volatility = np.sqrt(portfolio_variance)` (line 96), a daily
(non-annualized) fraction. -/
def portfolioVolatilityFrac (p : List Holding) (ret : List (String × List ℝ)) : ℝ :=
  Real.sqrt (portfolioVarianceFrac p ret)

/-- The success value built at lines 101-108: the two portfolio-level figures
are converted to percentages, `sharpe_ratio` and the per-stock details are
left as computed. -/
def mkMetrics (p : List Holding) (frame : PriceFrame) (rf : ℝ) : PortfolioMetrics :=
  let ret := returnsFrame frame
  { total_portfolio_value := totalValue p
  , portfolio_expected_return := expectedReturnFrac p ret * 100
  , portfolio_volatility := portfolioVolatilityFrac p ret * 100
  , sharpe_ratio := (expectedReturnFrac p ret - rf) / portfolioVolatilityFrac p ret
  , stock_details := (includedHoldings p ret).map (fun h => (h.ticker, stockDetailOf p ret h))
  , individual_stocks := p.map (fun h => h.ticker) }

/-- Message of the `ValueError` at line 23. -/
def emptyPortfolioMsg : String := "Portfolio cannot be empty"

/-- Message of the `ValueError` at line 41. -/
def noDataMsg : String := "No stock data could be retrieved. Check stock tickers."

/-- Message of the `ValueError` at line 82; it does not name any ticker. -/
def unableMsg : String := "Unable to calculate metrics for any stocks in the portfolio"

/-- Stand-in for the uncaught pandas/numpy exception propagating out of
lines 92-95 when some (but not all) portfolio tickers were skipped: the
weight vector is then shorter than the `loc[stock_tickers, stock_tickers]`
selection (`KeyError` on the label lookup in pandas >= 1.0, or a numpy
shape-mismatch `ValueError`). -/
def shapesMsg : String := "shapes not aligned"

/-- Embedding of `src/risk_return.py:calculate_portfolio_metrics`.  The frame
downloaded by `yf.download` at line 33 is passed in explicitly; the function
has no window/period parameter (the download period is hardcoded `"5y"`). -/
def calculate_portfolio_metrics (p : List Holding) (frame : PriceFrame) (rf : ℝ) :
    Except String PortfolioMetrics :=
  match p with
  | [] => .error emptyPortfolioMsg
  | _ :: _ =>
    if frameEmpty frame then .error noDataMsg
    else
      match includedHoldings p (returnsFrame frame) with
      | [] => .error unableMsg
      | _ :: _ =>
        if (includedHoldings p (returnsFrame frame)).length ≠ p.length then
          .error shapesMsg
        else
          .ok (mkMetrics p frame rf)

/-- True when the call returned the metrics dict rather than raising. -/
def isOkResult : Except String PortfolioMetrics → Bool
  | .ok _ => true
  | .error _ => false

/-- The returned `portfolio_volatility` (junk `0` on the error outcome). -/
def getVol : Except String PortfolioMetrics → ℝ
  | .ok m => m.portfolio_volatility
  | .error _ => 0

/-- The returned `portfolio_expected_return` (junk `0` on the error outcome). -/
def getER : Except String PortfolioMetrics → ℝ
  | .ok m => m.portfolio_expected_return
  | .error _ => 0

/-- The returned `sharpe_ratio` (junk `0` on the error outcome). -/
def getSharpe : Except String PortfolioMetrics → ℝ
  | .ok m => m.sharpe_ratio
  | .error _ => 0

/-- The returned `stock_details` (junk `[]` on the error outcome). -/
def getStockDetails : Except String PortfolioMetrics → List (String × StockDetail)
  | .ok m => m.stock_details
  | .error _ => []

/-- The `stock_details` entry of one ticker. -/
def getDetail (r : Except String PortfolioMetrics) (t : String) : StockDetail :=
  (List.lookup t (getStockDetails r)).getD dfltDetail

/-- Sum of the per-symbol weights in the returned breakdown. -/
def sumWeights (r : Except String PortfolioMetrics) : ℝ :=
  ((getStockDetails r).map (fun e => e.2.weight)).sum

/-- Modelled from the spec: the repository imports `black_scholes.py`
(`from black_scholes import black_scholes` in `src/app.py`), but that module
is not among the sources; the option parameters follow the spec's
`OptionParameters` data model. -/
structure OptionParameters where
  S : ℝ
  K : ℝ
  T : ℝ
  r : ℝ
  sigma : ℝ

/-- Unnormalised standard normal density `exp(-t^2/2)`. -/
def gaussDensity (t : ℝ) : ℝ := Real.exp (-(t ^ 2 / 2))

/-- Modelled from the spec: the standard normal cumulative distribution
function used by the absent pricer module (`Φ` in the spec's formulas). -/
def normCDF (x : ℝ) : ℝ :=
  (∫ t in Iic x, gaussDensity t) / Real.sqrt (2 * Real.pi)

/-- Modelled from the spec: `d1 = (ln(S/K) + (r + σ²/2)·T) / (σ·√T)`. -/
def d1 (p : OptionParameters) : ℝ :=
  (Real.log (p.S / p.K) + (p.r + p.sigma ^ 2 / 2) * p.T) / (p.sigma * Real.sqrt p.T)

/-- Modelled from the spec: `d2 = d1 − σ·√T`. -/
def d2 (p : OptionParameters) : ℝ := d1 p - p.sigma * Real.sqrt p.T

/-- Modelled from the spec: `call = S·Φ(d1) − K·e^(−rT)·Φ(d2)`. -/
def callPrice (p : OptionParameters) : ℝ :=
  p.S * normCDF (d1 p) - p.K * Real.exp (-p.r * p.T) * normCDF (d2 p)

/-- Modelled from the spec: `put = K·e^(−rT)·Φ(−d2) − S·Φ(d1)`, exactly as
the spec states it (section 4.1). -/
def putPriceSpec (p : OptionParameters) : ℝ :=
  p.K * Real.exp (-p.r * p.T) * normCDF (-(d2 p)) - p.S * normCDF (d1 p)

/-- The standard Black-Scholes put, `K·e^(−rT)·Φ(−d2) − S·Φ(−d1)`: the spec's
put formula with its last factor repaired from `Φ(d1)` to `Φ(−d1)`. -/
def putPriceFixed (p : OptionParameters) : ℝ :=
  p.K * Real.exp (-p.r * p.T) * normCDF (-(d2 p)) - p.S * normCDF (-(d1 p))

/-- Positional parameters of `calculate_portfolio_metrics`
(`src/risk_return.py` line 10). -/
def calculate_portfolio_metrics_params : List String :=
  ["portfolio_tuples", "risk_free_rate"]

/-- Positional parameters of `risk_return.main` (`src/risk_return.py`
line 110). -/
def risk_return_main_params : List String := ["portfolio_tuples"]

/-- Keyword arguments that `src/app.py` lines 325-328 passes to
`risk_return.main` (imported there as `calculate_portfolio_risk`). -/
def app_portfolio_risk_call_kwargs : List String := ["period"]

/-- The download period hardcoded at `src/risk_return.py` line 33. -/
def yf_download_period : String := "5y"
theorem sampleVar_nonneg (xs : List ℝ) : 0 ≤ sampleVar xs := by
  have hnum : 0 ≤ (xs.map (fun a => (a - mean xs) * (a - mean xs))).sum := by
    apply List.sum_nonneg
    intro x hx
    obtain ⟨a, _, rfl⟩ := List.mem_map.mp hx
    exact mul_self_nonneg _
  unfold sampleVar sampleCov
  rw [List.zipWith_same]
  rcases xs with _ | ⟨a, _ | ⟨b, t⟩⟩
  · simp
  · simp
  · apply div_nonneg hnum
    have hlen : ((a :: b :: t).length : ℝ) = (t.length : ℝ) + 2 := by
      simp [List.length_cons]
      ring
    rw [hlen]
    linarith [Nat.cast_nonneg (α := ℝ) t.length]

theorem mul_self_sampleStd (xs : List ℝ) : sampleStd xs * sampleStd xs = sampleVar xs :=
  Real.mul_self_sqrt (sampleVar_nonneg xs)

theorem sampleStd_nonneg (xs : List ℝ) : 0 ≤ sampleStd xs := Real.sqrt_nonneg _

theorem calc_eq_ok (p : List Holding) (frame : PriceFrame) (rf : ℝ)
    (hp : p ≠ []) (hf : frameEmpty frame = false)
    (hall : ∀ h ∈ p, (List.lookup h.ticker (returnsFrame frame)).isSome = true) :
    calculate_portfolio_metrics p frame rf = .ok (mkMetrics p frame rf) := by
  have hinc : includedHoldings p (returnsFrame frame) = p :=
    List.filter_eq_self.mpr (fun a ha => by simpa using hall a ha)
  rcases p with _ | ⟨a, as⟩
  · exact absurd rfl hp
  · unfold calculate_portfolio_metrics
    rw [hf, hinc]
    simp
theorem lookup_single (h : Holding) (c : List ℝ) :
    List.lookup h.ticker (returnsFrame [(h.ticker, c)]) = some (pctChange c) := by
  simp [returnsFrame, List.lookup]

theorem includedHoldings_single (h : Holding) (c : List ℝ) :
    includedHoldings [h] (returnsFrame [(h.ticker, c)]) = [h] := by
  simp [includedHoldings, List.filter, lookup_single]

theorem colOf_single (h : Holding) (c : List ℝ) :
    colOf (returnsFrame [(h.ticker, c)]) h.ticker = pctChange c := by
  simp [colOf, lookup_single]

theorem totalValue_single (h : Holding) : totalValue [h] = h.shares * h.price := by
  simp [totalValue]

theorem weightOf_single (h : Holding) (hv : h.shares * h.price ≠ 0) :
    weightOf [h] h = 1 := by
  rw [weightOf, totalValue_single]
  exact div_self hv

theorem erFrac_single (h : Holding) (c : List ℝ) (hv : h.shares * h.price ≠ 0) :
    expectedReturnFrac [h] (returnsFrame [(h.ticker, c)]) = mean (pctChange c) * 252 := by
  rw [expectedReturnFrac, includedHoldings_single]
  simp [colOf_single, weightOf_single h hv]

theorem varFrac_single (h : Holding) (c : List ℝ) (hv : h.shares * h.price ≠ 0)
    (hs : sampleStd (pctChange c) ≠ 0) :
    portfolioVarianceFrac [h] (returnsFrame [(h.ticker, c)]) = sampleVar (pctChange c) := by
  rw [portfolioVarianceFrac, includedHoldings_single]
  simp only [List.map_cons, List.map_nil, List.sum_cons, List.sum_nil,
    weightOf_single h hv, covEntry, colOf_single, corr]
  rw [mul_self_sampleStd]
  have hss : sampleVar (pctChange c) ≠ 0 := by
    rw [← mul_self_sampleStd]
    exact mul_ne_zero hs hs
  field_simp [sampleVar]

theorem volFrac_single (h : Holding) (c : List ℝ) (hv : h.shares * h.price ≠ 0)
    (hs : sampleStd (pctChange c) ≠ 0) :
    portfolioVolatilityFrac [h] (returnsFrame [(h.ticker, c)]) = sampleStd (pctChange c) := by
  rw [portfolioVolatilityFrac, varFrac_single h c hv hs, sampleStd]
theorem pct_121 : pctChange [1, 2, 1] = [1, -(1/2 : ℝ)] := by
  simp [pctChange]
  norm_num

theorem var_121 : sampleVar (pctChange [1, 2, 1]) = 9/8 := by
  rw [pct_121]
  simp [sampleVar, sampleCov, mean]
  norm_num

theorem std_121_ne : sampleStd (pctChange [1, 2, 1]) ≠ 0 := by
  rw [sampleStd, var_121]
  exact ne_of_gt (Real.sqrt_pos.mpr (by norm_num))

theorem sqrt252_lt_100 : Real.sqrt 252 < 100 := by
  have h1 : Real.sqrt 252 < Real.sqrt 10000 :=
    Real.sqrt_lt_sqrt (by norm_num) (by norm_num)
  have h2 : Real.sqrt 10000 = 100 := by
    rw [show (10000 : ℝ) = 100 ^ 2 by norm_num, Real.sqrt_sq (by norm_num : (0:ℝ) ≤ 100)]
  linarith

theorem sqrt252_pos : 0 < Real.sqrt 252 := Real.sqrt_pos.mpr (by norm_num)
/-- Claim C1 (counterexample): for the single-asset portfolio
`[("A", 1, 1)]` with price history `[1, 2, 1]`, the `portfolio_volatility`
returned by `calculate_portfolio_metrics` differs from the
`annual_volatility` reported for "A" in `stock_details`: the former is the
daily standard deviation (×100), the latter the √252-annualized one. -/
theorem C1_counterexample :
    getVol (calculate_portfolio_metrics [⟨"A", 1, 1⟩] [("A", [1, 2, 1])] (5/100)) ≠
      (getDetail (calculate_portfolio_metrics [⟨"A", 1, 1⟩] [("A", [1, 2, 1])] (5/100))
        "A").annual_volatility := by
  have hv : (⟨"A", 1, 1⟩ : Holding).shares * (⟨"A", 1, 1⟩ : Holding).price ≠ 0 := by
    norm_num
  have hok := calc_eq_ok [⟨"A", 1, 1⟩] [("A", [1, 2, 1])] (5/100)
    (by simp) rfl (by decide)
  rw [hok]
  have hdet : (getDetail (Except.ok (mkMetrics [⟨"A", 1, 1⟩] [("A", [1, 2, 1])] (5/100)))
      "A").annual_volatility = sampleStd (pctChange [1, 2, 1]) * Real.sqrt 252 := by
    simp [getDetail, getStockDetails, mkMetrics, includedHoldings_single (⟨"A", 1, 1⟩ : Holding),
      List.lookup, stockDetailOf, colOf_single (⟨"A", 1, 1⟩ : Holding)]
  rw [hdet]
  have hvol : getVol (Except.ok (mkMetrics [⟨"A", 1, 1⟩] [("A", [1, 2, 1])] (5/100))) =
      sampleStd (pctChange [1, 2, 1]) * 100 := by
    simp [getVol, mkMetrics, volFrac_single (⟨"A", 1, 1⟩ : Holding) [1, 2, 1] hv std_121_ne]
  rw [hvol]
  have hs0 : 0 < sampleStd (pctChange [1, 2, 1]) :=
    lt_of_le_of_ne (sampleStd_nonneg _) (Ne.symm std_121_ne)
  have : sampleStd (pctChange [1, 2, 1]) * Real.sqrt 252 <
      sampleStd (pctChange [1, 2, 1]) * 100 :=
    mul_lt_mul_of_pos_left sqrt252_lt_100 hs0
  linarith
/-- Claim C1 (amended): for a valid single-asset portfolio (one holding of
nonzero value whose ticker has a price series of nonzero return variance),
the returned `portfolio_volatility` equals that asset's reported
`annualized_volatility` divided by √252 and multiplied by 100: the covariance
matrix is built from daily (non-annualized) standard deviations and the
portfolio volatility is never annualized, while the per-symbol breakdown
value is annualized but never converted to a percentage. -/
theorem C1_amended (h : Holding) (c : List ℝ) (rf : ℝ)
    (hc : c ≠ []) (hv : h.shares * h.price ≠ 0) (hs : sampleStd (pctChange c) ≠ 0) :
    getVol (calculate_portfolio_metrics [h] [(h.ticker, c)] rf) =
      100 * (getDetail (calculate_portfolio_metrics [h] [(h.ticker, c)] rf)
        h.ticker).annual_volatility / Real.sqrt 252 := by
  have hf : frameEmpty [(h.ticker, c)] = false := by
    simp [frameEmpty, hc]
  have hall : ∀ h' ∈ [h], (List.lookup h'.ticker (returnsFrame [(h.ticker, c)])).isSome = true := by
    intro h' hh
    rw [List.mem_singleton] at hh
    subst hh
    rw [lookup_single]
    rfl
  rw [calc_eq_ok [h] [(h.ticker, c)] rf (by simp) hf hall]
  have hdet : (getDetail (Except.ok (mkMetrics [h] [(h.ticker, c)] rf)) h.ticker).annual_volatility =
      sampleStd (pctChange c) * Real.sqrt 252 := by
    simp [getDetail, getStockDetails, mkMetrics, includedHoldings_single h c,
      List.lookup, stockDetailOf, colOf_single h c]
  have hvol : getVol (Except.ok (mkMetrics [h] [(h.ticker, c)] rf)) =
      sampleStd (pctChange c) * 100 := by
    simp [getVol, mkMetrics, volFrac_single h c hv hs]
  rw [hdet, hvol]
  have h252 : Real.sqrt 252 ≠ 0 := ne_of_gt sqrt252_pos
  field_simp
  ring

/-- Claim C1 (witness): the amended statement instantiated at the portfolio
`[("A", 1, 1)]` with price history `[1, 2, 1]`. -/
theorem C1_witness :
    ([1, 2, 1] : List ℝ) ≠ [] ∧
    (⟨"A", 1, 1⟩ : Holding).shares * (⟨"A", 1, 1⟩ : Holding).price ≠ 0 ∧
    sampleStd (pctChange [1, 2, 1]) ≠ 0 ∧
    getVol (calculate_portfolio_metrics [⟨"A", 1, 1⟩] [("A", [1, 2, 1])] (5/100)) =
      100 * (getDetail (calculate_portfolio_metrics [⟨"A", 1, 1⟩] [("A", [1, 2, 1])] (5/100))
        "A").annual_volatility / Real.sqrt 252 :=
  ⟨by simp, by norm_num, std_121_ne,
    C1_amended ⟨"A", 1, 1⟩ [1, 2, 1] (5/100) (by simp) (by norm_num) std_121_ne⟩
/-- Claim C2 (amended): `calculate_portfolio_metrics` applies the Sharpe
formula unconditionally.  On every accepted input it returns a metrics dict
whose `sharpe_ratio` is the quotient
`(expected_return_fraction − risk_free_rate) / portfolio_volatility_fraction`;
no DivisionByZero error exists, and a zero portfolio volatility is not
trapped (in Python the IEEE quotient is a non-finite float, idealised here by
real division). -/
theorem C2_theorem (p : List Holding) (frame : PriceFrame) (rf : ℝ)
    (hp : p ≠ []) (hf : frameEmpty frame = false)
    (hall : ∀ h ∈ p, (List.lookup h.ticker (returnsFrame frame)).isSome = true) :
    isOkResult (calculate_portfolio_metrics p frame rf) = true ∧
    getSharpe (calculate_portfolio_metrics p frame rf) =
      (expectedReturnFrac p (returnsFrame frame) - rf) /
        portfolioVolatilityFrac p (returnsFrame frame) := by
  rw [calc_eq_ok p frame rf hp hf hall]
  exact ⟨rfl, rfl⟩

theorem pct_111 : pctChange [1, 1, 1] = [0, (0 : ℝ)] := by
  simp [pctChange]

theorem std_00 : sampleStd [0, (0 : ℝ)] = 0 := by
  have hvar : sampleVar [0, (0 : ℝ)] = 0 := by
    simp [sampleVar, sampleCov, mean]
  rw [sampleStd, hvar, Real.sqrt_zero]

/-- Claim C2 (counterexample): for the portfolio `[("A", 1, 1)]` whose price
history `[1, 1, 1]` is constant, the computed portfolio volatility is 0, yet
the function still returns a metrics dict instead of failing with a
DivisionByZero error. -/
theorem C2_counterexample :
    isOkResult (calculate_portfolio_metrics [⟨"A", 1, 1⟩] [("A", [1, 1, 1])] (5/100)) = true ∧
    getVol (calculate_portfolio_metrics [⟨"A", 1, 1⟩] [("A", [1, 1, 1])] (5/100)) = 0 := by
  have hok := calc_eq_ok [⟨"A", 1, 1⟩] [("A", [1, 1, 1])] (5/100)
    (by simp) rfl (by decide)
  rw [hok]
  refine ⟨rfl, ?_⟩
  have hvfrac : portfolioVarianceFrac [⟨"A", 1, 1⟩] (returnsFrame [("A", [1, 1, 1])]) = 0 := by
    rw [portfolioVarianceFrac, includedHoldings_single (⟨"A", 1, 1⟩ : Holding)]
    simp [covEntry, colOf_single (⟨"A", 1, 1⟩ : Holding), pct_111, std_00]
  simp [getVol, mkMetrics, portfolioVolatilityFrac, hvfrac]

/-- Claim C2 (witness): the amended statement instantiated at the portfolio
`[("A", 1, 1)]` with price history `[1, 2, 1]`. -/
theorem C2_witness :
    isOkResult (calculate_portfolio_metrics [⟨"A", 1, 1⟩] [("A", [1, 2, 1])] (5/100)) = true ∧
    getSharpe (calculate_portfolio_metrics [⟨"A", 1, 1⟩] [("A", [1, 2, 1])] (5/100)) =
      (expectedReturnFrac [⟨"A", 1, 1⟩] (returnsFrame [("A", [1, 2, 1])]) - 5/100) /
        portfolioVolatilityFrac [⟨"A", 1, 1⟩] (returnsFrame [("A", [1, 2, 1])]) :=
  C2_theorem [⟨"A", 1, 1⟩] [("A", [1, 2, 1])] (5/100) (by simp) rfl (by decide)
/-- Claim C4: the window is not an input of the portfolio computation.  The
`yf.download` call inside `calculate_portfolio_metrics` hardcodes the period
`"5y"`, `risk_return.main` accepts only `portfolio_tuples`, and the keyword
argument `period` that `src/app.py` passes to it is not among its parameters
(so that in-repo call raises `TypeError`). -/
theorem C4_theorem :
    yf_download_period = "5y" ∧
    "period" ∈ app_portfolio_risk_call_kwargs ∧
    "period" ∉ risk_return_main_params ∧
    "period" ∉ calculate_portfolio_metrics_params := by
  refine ⟨rfl, by simp [app_portfolio_risk_call_kwargs], ?_, ?_⟩ <;>
    simp [risk_return_main_params, calculate_portfolio_metrics_params]

/-- Claim C5 (amended): the metrics are a pure function of the portfolio,
the downloaded price frame, and the risk-free rate together: identical
values of all three inputs give identical results.  The downloaded frame is
a genuine input — `calculate_portfolio_metrics` fetches it over the network
on each call — so the holdings and rate alone do not determine the result
(see the counterexample). -/
theorem C5_amended (p₁ p₂ : List Holding) (f₁ f₂ : PriceFrame) (r₁ r₂ : ℝ)
    (hp : p₁ = p₂) (hf : f₁ = f₂) (hr : r₁ = r₂) :
    calculate_portfolio_metrics p₁ f₁ r₁ = calculate_portfolio_metrics p₂ f₂ r₂ := by
  rw [hp, hf, hr]

/-- Claim C5 (witness): determinism instantiated at a concrete portfolio,
frame and rate. -/
theorem C5_witness :
    calculate_portfolio_metrics [⟨"A", 1, 1⟩] [("A", [1, 2])] 0 =
      calculate_portfolio_metrics [⟨"A", 1, 1⟩] [("A", [1, 2])] 0 :=
  C5_amended [⟨"A", 1, 1⟩] [⟨"A", 1, 1⟩] [("A", [1, 2])] [("A", [1, 2])] 0 0 rfl rfl rfl

/-- Claim C5 (counterexample): two calls with identical holdings and
risk-free rate but different downloaded price data produce different
metrics, so the result is not a function of holdings, rate and window alone:
the function's internal `yf.download` is an input in disguise. -/
theorem C5_counterexample :
    calculate_portfolio_metrics [⟨"A", 1, 1⟩] [("A", [1, 2])] 0 ≠
      calculate_portfolio_metrics [⟨"A", 1, 1⟩] [("A", [1, 3])] 0 := by
  intro heq
  have h1 := calc_eq_ok [⟨"A", 1, 1⟩] [("A", [1, 2])] 0 (by simp) rfl (by decide)
  have h2 := calc_eq_ok [⟨"A", 1, 1⟩] [("A", [1, 3])] 0 (by simp) rfl (by decide)
  rw [h1, h2] at heq
  have hER := congrArg getER heq
  have hv : (⟨"A", 1, 1⟩ : Holding).shares * (⟨"A", 1, 1⟩ : Holding).price ≠ 0 := by norm_num
  rw [getER, getER, mkMetrics, mkMetrics] at hER
  simp only [erFrac_single (⟨"A", 1, 1⟩ : Holding) [1, 2] hv,
    erFrac_single (⟨"A", 1, 1⟩ : Holding) [1, 3] hv] at hER
  have hm1 : mean (pctChange [1, 2]) = 1 := by
    simp [pctChange, mean]
    norm_num
  have hm2 : mean (pctChange [1, 3]) = 2 := by
    simp [pctChange, mean]
    norm_num
  rw [hm1, hm2] at hER
  norm_num at hER
/-- Claim C6 (counterexample): the portfolio `[("ZZZ", 1, 1)]` whose ticker
has no price series (the frame only has data for "B") is rejected with the
generic message of `src/risk_return.py` line 82, which does not name the
missing symbol. -/
theorem C6_counterexample :
    calculate_portfolio_metrics [⟨"ZZZ", 1, 1⟩] [("B", [1, 2])] (5/100) =
      .error unableMsg ∧ ¬ ('Z' ∈ unableMsg.data) := by
  exact ⟨rfl, by decide⟩

/-- Claim C6 (amended): a holding whose symbol lacks a return column is
skipped by the per-symbol loop (with only a logged warning).  When no
holding has data, the function raises the generic `ValueError` of line 82,
which names no symbol; when only some lack data, the later covariance
selection / dot product fails with an untyped pandas/numpy error.  In
neither case is a MissingData error naming the symbol(s) produced, and
metrics are never computed from the surviving holdings alone. -/
theorem C6_amended (p : List Holding) (frame : PriceFrame) (rf : ℝ)
    (hp : p ≠ []) (hf : frameEmpty frame = false)
    (hmiss : ∃ h ∈ p, List.lookup h.ticker (returnsFrame frame) = none) :
    calculate_portfolio_metrics p frame rf = .error unableMsg ∨
      calculate_portfolio_metrics p frame rf = .error shapesMsg := by
  obtain ⟨h0, hmem, hnone⟩ := hmiss
  have hlen : (includedHoldings p (returnsFrame frame)).length ≠ p.length := by
    intro hEq
    have hfe : includedHoldings p (returnsFrame frame) = p :=
      (List.filter_sublist _).eq_of_length hEq
    have := List.filter_eq_self.mp hfe h0 hmem
    rw [hnone] at this
    simp at this
  rcases p with _ | ⟨a, as⟩
  · exact absurd rfl hp
  · unfold calculate_portfolio_metrics
    rw [hf]
    rcases hI : includedHoldings (a :: as) (returnsFrame frame) with _ | ⟨b, bs⟩
    · left
      simp
    · right
      rw [hI] at hlen
      simp [hlen]
      simp only [List.length_cons] at hlen
      omega
/-- Claim C6 (witness): the amended statement instantiated at a two-asset
portfolio where only "A" has price data. -/
theorem C6_witness :
    calculate_portfolio_metrics [⟨"A", 1, 1⟩, ⟨"B", 1, 1⟩] [("A", [1, 2])] (5/100) =
        .error unableMsg ∨
      calculate_portfolio_metrics [⟨"A", 1, 1⟩, ⟨"B", 1, 1⟩] [("A", [1, 2])] (5/100) =
        .error shapesMsg :=
  C6_amended [⟨"A", 1, 1⟩, ⟨"B", 1, 1⟩] [("A", [1, 2])] (5/100) (by simp) rfl
    ⟨⟨"B", 1, 1⟩, List.mem_cons_of_mem _ (List.mem_cons_self _ _), rfl⟩

/-- Claim C7 (amended): the returned `portfolio_expected_return` is the
weighted sum of annualized mean daily returns converted to a percentage
(×100), but the per-symbol breakdown keeps `annual_return` and
`annual_volatility` as the internal fractional values — the ×100 conversion
is applied only to the two portfolio-level figures (and again at display
time in `main`), not to `stock_details`. -/
theorem C7_amended (p : List Holding) (frame : PriceFrame) (rf : ℝ)
    (hp : p ≠ []) (hf : frameEmpty frame = false)
    (hall : ∀ h ∈ p, (List.lookup h.ticker (returnsFrame frame)).isSome = true) :
    getER (calculate_portfolio_metrics p frame rf) =
      expectedReturnFrac p (returnsFrame frame) * 100 ∧
    ∀ t d, (t, d) ∈ getStockDetails (calculate_portfolio_metrics p frame rf) →
      d.annual_return = mean (colOf (returnsFrame frame) t) * 252 ∧
      d.annual_volatility = sampleStd (colOf (returnsFrame frame) t) * Real.sqrt 252 := by
  rw [calc_eq_ok p frame rf hp hf hall]
  refine ⟨rfl, ?_⟩
  intro t d hmem
  simp only [getStockDetails, mkMetrics] at hmem
  obtain ⟨h, _, heq⟩ := List.mem_map.mp hmem
  obtain ⟨ht, hd⟩ := Prod.ext_iff.mp heq
  subst ht
  subst hd
  exact ⟨rfl, rfl⟩

/-- Claim C7 (witness): the amended statement instantiated at the portfolio
`[("A", 1, 1)]` with price history `[1, 2, 4]`. -/
theorem C7_witness :
    getER (calculate_portfolio_metrics [⟨"A", 1, 1⟩] [("A", [1, 2, 4])] (5/100)) =
      expectedReturnFrac [⟨"A", 1, 1⟩] (returnsFrame [("A", [1, 2, 4])]) * 100 ∧
    ∀ t d, (t, d) ∈ getStockDetails
        (calculate_portfolio_metrics [⟨"A", 1, 1⟩] [("A", [1, 2, 4])] (5/100)) →
      d.annual_return = mean (colOf (returnsFrame [("A", [1, 2, 4])]) t) * 252 ∧
      d.annual_volatility =
        sampleStd (colOf (returnsFrame [("A", [1, 2, 4])]) t) * Real.sqrt 252 :=
  C7_amended [⟨"A", 1, 1⟩] [("A", [1, 2, 4])] (5/100) (by simp) rfl (by decide)

/-- Claim C7 (counterexample): for the portfolio `[("A", 1, 1)]` with price
history `[1, 2, 4]`, the `annual_return` stored for "A" in `stock_details`
is the fraction `2.52`, not the fractional value multiplied by 100 that the
claim asserts for every value of the final result. -/
theorem C7_counterexample :
    (getDetail (calculate_portfolio_metrics [⟨"A", 1, 1⟩] [("A", [1, 2, 4])] (5/100))
        "A").annual_return ≠
      100 * (mean (colOf (returnsFrame [("A", [1, 2, 4])]) "A") * 252) := by
  have hok := calc_eq_ok [⟨"A", 1, 1⟩] [("A", [1, 2, 4])] (5/100)
    (by simp) rfl (by decide)
  rw [hok]
  have hdet : (getDetail (Except.ok (mkMetrics [⟨"A", 1, 1⟩] [("A", [1, 2, 4])] (5/100)))
      "A").annual_return = mean (colOf (returnsFrame [("A", [1, 2, 4])]) "A") * 252 := by
    simp [getDetail, getStockDetails, mkMetrics, includedHoldings_single (⟨"A", 1, 1⟩ : Holding),
      List.lookup, stockDetailOf]
  rw [hdet]
  have hm : mean (colOf (returnsFrame [("A", [1, 2, 4])]) "A") = 1 := by
    rw [show colOf (returnsFrame [("A", [1, 2, 4])]) "A" = pctChange [1, 2, 4] from
      colOf_single ⟨"A", 1, 1⟩ [1, 2, 4]]
    simp [pctChange, mean]
    norm_num
  rw [hm]
  norm_num
theorem sum_map_div (l : List ℝ) (c : ℝ) : (l.map (fun x => x / c)).sum = l.sum / c := by
  induction l with
  | nil => simp
  | cons a t ih => simp [ih, add_div]

/-- Claim C8: for every valid non-empty portfolio (every holding's ticker
has a return column and the total value is nonzero, as the Holding
invariants `shares > 0`, `price > 0` guarantee), the call is accepted and
the per-symbol weights in the returned breakdown sum to 1 within 1e-9
(exactly, in real arithmetic). -/
theorem C8_theorem (p : List Holding) (frame : PriceFrame) (rf : ℝ)
    (hp : p ≠ []) (hf : frameEmpty frame = false)
    (hall : ∀ h ∈ p, (List.lookup h.ticker (returnsFrame frame)).isSome = true)
    (htot : totalValue p ≠ 0) :
    isOkResult (calculate_portfolio_metrics p frame rf) = true ∧
    |sumWeights (calculate_portfolio_metrics p frame rf) - 1| ≤ 1e-9 := by
  rw [calc_eq_ok p frame rf hp hf hall]
  refine ⟨rfl, ?_⟩
  have hinc : includedHoldings p (returnsFrame frame) = p :=
    List.filter_eq_self.mpr (fun a ha => by simpa using hall a ha)
  have hsum : sumWeights (Except.ok (mkMetrics p frame rf)) =
      (p.map (fun h => h.shares * h.price / totalValue p)).sum := by
    simp only [sumWeights, getStockDetails, mkMetrics, hinc, List.map_map]
    congr 1
  rw [hsum]
  have : (p.map (fun h => h.shares * h.price / totalValue p)).sum = 1 := by
    have hcomp : p.map (fun h => h.shares * h.price / totalValue p) =
        (p.map (fun h => h.shares * h.price)).map (fun x => x / totalValue p) := by
      rw [List.map_map]
      rfl
    rw [hcomp, sum_map_div]
    exact div_self htot
  rw [this]
  norm_num

/-- Claim C8 (witness): the statement instantiated at the two-asset
portfolio `[("A", 10, 100), ("B", 5, 200)]` with identical price histories. -/
theorem C8_witness :
    isOkResult (calculate_portfolio_metrics [⟨"A", 10, 100⟩, ⟨"B", 5, 200⟩]
      [("A", [1, 2, 1]), ("B", [1, 2, 1])] (5/100)) = true ∧
    |sumWeights (calculate_portfolio_metrics [⟨"A", 10, 100⟩, ⟨"B", 5, 200⟩]
      [("A", [1, 2, 1]), ("B", [1, 2, 1])] (5/100)) - 1| ≤ 1e-9 :=
  C8_theorem [⟨"A", 10, 100⟩, ⟨"B", 5, 200⟩] [("A", [1, 2, 1]), ("B", [1, 2, 1])] (5/100)
    (by simp) rfl (by decide) (by norm_num [totalValue])
/-- Claim C9: every price series with fewer than 2 observations makes
`get_crypto_stats` return an error dict rather than NaN-valued statistics;
in particular a single-observation series is rejected with the
"Not enough data" message of `src/crypto_statistics.py` line 33 (an empty
series already fails while building the DataFrame and is reported through
the catch-all handler). -/
theorem C9_theorem (symbol : String) (closes : List ℝ) (h : closes.length < 2) :
    isErrorCrypto (get_crypto_stats symbol closes) = true ∧
    (closes.length = 1 →
      get_crypto_stats symbol closes = .error "Not enough data to calculate statistics") := by
  rcases closes with _ | ⟨a, rest⟩
  · exact ⟨rfl, by intro h1; simp at h1⟩
  · have hrest : rest = [] := by
      rcases rest with _ | ⟨b, t⟩
      · rfl
      · exfalso
        simp only [List.length_cons] at h
        omega
    subst hrest
    exact ⟨rfl, fun _ => rfl⟩

/-- Claim C9 (witness): the statement instantiated at the single-observation
series `[5]`. -/
theorem C9_witness :
    isErrorCrypto (get_crypto_stats "BTC" [5]) = true ∧
    (([5] : List ℝ).length = 1 →
      get_crypto_stats "BTC" [5] = .error "Not enough data to calculate statistics") :=
  C9_theorem "BTC" [5] (by simp)

/-- Claim C10: `get_crypto_stats` is total — every call returns either the
four-statistics dict or an error dict; the body's `try/except Exception`
converts every internal failure into the error-dict form, so no exception
reaches the caller. -/
theorem C10_theorem (symbol : String) (closes : List ℝ) :
    (∃ s, get_crypto_stats symbol closes = .stats s) ∨
    (∃ msg, get_crypto_stats symbol closes = .error msg) := by
  rcases hr : get_crypto_stats symbol closes with s | msg
  · exact .inl ⟨s, rfl⟩
  · exact .inr ⟨msg, rfl⟩

/-- Claim C10 (witness): the statement instantiated at a concrete symbol
and series. -/
theorem C10_witness :
    (∃ s, get_crypto_stats "BTC" [1, 2, 3] = .stats s) ∨
    (∃ msg, get_crypto_stats "BTC" [1, 2, 3] = .error msg) :=
  C10_theorem "BTC" [1, 2, 3]
theorem gaussDensity_eq : gaussDensity = fun t => Real.exp (-(1/2) * t ^ 2) := by
  funext t
  unfold gaussDensity
  congr 1
  ring

theorem integrable_gauss : Integrable gaussDensity := by
  rw [gaussDensity_eq]
  exact integrable_exp_neg_mul_sq (by norm_num)

theorem total_gauss : ∫ t, gaussDensity t = Real.sqrt (2 * Real.pi) := by
  rw [gaussDensity_eq, integral_gaussian]
  congr 1
  rw [div_div_eq_mul_div, div_one, mul_comm]

theorem gauss_even (t : ℝ) : gaussDensity (-t) = gaussDensity t := by
  unfold gaussDensity
  rw [neg_pow]
  norm_num

theorem sqrt_two_pi_pos : 0 < Real.sqrt (2 * Real.pi) :=
  Real.sqrt_pos.mpr (by positivity)

theorem integral_Iic_neg_gauss (x : ℝ) :
    ∫ t in Iic (-x), gaussDensity t = ∫ t in Ioi x, gaussDensity t := by
  rw [← integral_comp_neg_Ioi]
  simp only [gauss_even]

theorem normCDF_add_neg (x : ℝ) : normCDF x + normCDF (-x) = 1 := by
  unfold normCDF
  rw [div_add_div_same, integral_Iic_neg_gauss,
    intervalIntegral.integral_Iic_add_Ioi integrable_gauss.integrableOn
      integrable_gauss.integrableOn,
    total_gauss, div_self (ne_of_gt sqrt_two_pi_pos)]

theorem normCDF_zero : normCDF 0 = 1/2 := by
  have h := normCDF_add_neg 0
  rw [neg_zero] at h
  linarith
theorem int_gauss_lb :
    Real.exp (-(1/8)) * (1/2) ≤ ∫ t in (0:ℝ)..(1/2), gaussDensity t := by
  have hmono : ∫ t in (0:ℝ)..(1/2), (Real.exp (-(1/8)) : ℝ) ≤
      ∫ t in (0:ℝ)..(1/2), gaussDensity t := by
    apply intervalIntegral.integral_mono_on (by norm_num)
      intervalIntegrable_const integrable_gauss.intervalIntegrable
    intro t ht
    obtain ⟨ht0, ht1⟩ := ht
    unfold gaussDensity
    apply Real.exp_le_exp.mpr
    nlinarith
  calc Real.exp (-(1/8)) * (1/2)
      = ∫ t in (0:ℝ)..(1/2), (Real.exp (-(1/8)) : ℝ) := by
        rw [intervalIntegral.integral_const, smul_eq_mul]
        ring
    _ ≤ ∫ t in (0:ℝ)..(1/2), gaussDensity t := hmono

theorem sqrt_two_pi_le_three : Real.sqrt (2 * Real.pi) ≤ 3 := by
  have h9 : Real.sqrt 9 = 3 := by
    rw [show (9:ℝ) = 3 ^ 2 by norm_num, Real.sqrt_sq (by norm_num : (0:ℝ) ≤ 3)]
  calc Real.sqrt (2 * Real.pi) ≤ Real.sqrt 9 :=
        Real.sqrt_le_sqrt (by nlinarith [Real.pi_le_four])
    _ = 3 := h9

theorem exp_eighth_lb : (7:ℝ)/8 ≤ Real.exp (-(1/8)) := by
  have h := Real.add_one_le_exp (-(1/8) : ℝ)
  linarith

theorem normCDF_half_lb : 7/48 ≤ normCDF (1/2) - normCDF 0 := by
  have hdiff : normCDF (1/2) - normCDF 0 =
      (∫ t in (0:ℝ)..(1/2), gaussDensity t) / Real.sqrt (2 * Real.pi) := by
    unfold normCDF
    rw [div_sub_div_same, intervalIntegral.integral_Iic_sub_Iic
      integrable_gauss.integrableOn integrable_gauss.integrableOn]
  rw [hdiff]
  have hI : (7:ℝ)/16 ≤ ∫ t in (0:ℝ)..(1/2), gaussDensity t := by
    have := int_gauss_lb
    nlinarith [exp_eighth_lb]
  have hI0 : (0:ℝ) ≤ ∫ t in (0:ℝ)..(1/2), gaussDensity t := by linarith
  calc (7:ℝ)/48 = (7/16) / 3 := by norm_num
    _ ≤ (∫ t in (0:ℝ)..(1/2), gaussDensity t) / Real.sqrt (2 * Real.pi) :=
        div_le_div₀ hI0 hI sqrt_two_pi_pos sqrt_two_pi_le_three
/-- The spec's concrete reference parameters used to refute the stated put
formula: S = K = T = σ = 1, r = 0 (a valid parameter set). -/
def bsParams : OptionParameters := ⟨1, 1, 1, 0, 1⟩

theorem d1_bsParams : d1 bsParams = 1/2 := by
  unfold d1 bsParams
  simp [Real.sqrt_one, Real.log_one]

theorem d2_bsParams : d2 bsParams = -(1/2) := by
  unfold d2
  rw [d1_bsParams]
  unfold bsParams
  simp [Real.sqrt_one]
  norm_num
/-- Claim C3 (counterexample): at the valid parameters S = K = T = σ = 1,
r = 0, the spec's stated formulas violate put-call parity by
2·Φ(1/2) − 1 > 1e-6: the stated put formula subtracts `S·Φ(d1)` where the
standard Black-Scholes put subtracts `S·Φ(−d1)`. -/
theorem C3_counterexample :
    0 < bsParams.S ∧ 0 < bsParams.K ∧ 0 < bsParams.T ∧
    0 ≤ bsParams.r ∧ 0 ≤ bsParams.sigma ∧
    1e-6 < |callPrice bsParams - putPriceSpec bsParams -
      (bsParams.S - bsParams.K * Real.exp (-bsParams.r * bsParams.T))| := by
  refine ⟨by norm_num [bsParams], by norm_num [bsParams], by norm_num [bsParams],
    by norm_num [bsParams], by norm_num [bsParams], ?_⟩
  have hval : callPrice bsParams - putPriceSpec bsParams -
      (bsParams.S - bsParams.K * Real.exp (-bsParams.r * bsParams.T)) =
      2 * normCDF (1/2) - 1 := by
    unfold callPrice putPriceSpec
    rw [d1_bsParams, d2_bsParams]
    have hx : -bsParams.r * bsParams.T = 0 := by norm_num [bsParams]
    rw [hx, Real.exp_zero]
    have hn := normCDF_add_neg (1/2)
    norm_num [bsParams]
    linarith
  rw [hval]
  have h1 := normCDF_half_lb
  have h0 := normCDF_zero
  have h2 : (7:ℝ)/24 ≤ 2 * normCDF (1/2) - 1 := by linarith
  calc (1e-6 : ℝ) < 7/24 := by norm_num
    _ ≤ 2 * normCDF (1/2) - 1 := h2
    _ ≤ |2 * normCDF (1/2) - 1| := le_abs_self _

/-- Claim C3 (amended): with the put formula repaired to the standard
Black-Scholes form `put = K·e^(−rT)·Φ(−d2) − S·Φ(−d1)`, put-call parity
`call − put = S − K·e^(−rT)` holds exactly (hence within any tolerance) for
all valid OptionParameters. -/
theorem C3_amended (p : OptionParameters) (hS : 0 < p.S) (hK : 0 < p.K)
    (hT : 0 < p.T) (hr : 0 ≤ p.r) (hsig : 0 ≤ p.sigma) :
    callPrice p - putPriceFixed p = p.S - p.K * Real.exp (-p.r * p.T) := by
  unfold callPrice putPriceFixed
  have h1 := normCDF_add_neg (d1 p)
  have h2 := normCDF_add_neg (d2 p)
  linear_combination p.S * h1 - p.K * Real.exp (-p.r * p.T) * h2

/-- Claim C3 (witness): parity for the repaired put at the valid parameters
S = K = T = σ = 1, r = 0. -/
theorem C3_witness :
    0 < bsParams.S ∧ 0 < bsParams.K ∧ 0 < bsParams.T ∧
    0 ≤ bsParams.r ∧ 0 ≤ bsParams.sigma ∧
    callPrice bsParams - putPriceFixed bsParams =
      bsParams.S - bsParams.K * Real.exp (-bsParams.r * bsParams.T) :=
  ⟨by norm_num [bsParams], by norm_num [bsParams], by norm_num [bsParams],
   by norm_num [bsParams], by norm_num [bsParams],
   C3_amended bsParams (by norm_num [bsParams]) (by norm_num [bsParams])
     (by norm_num [bsParams]) (by norm_num [bsParams]) (by norm_num [bsParams])⟩
